import Mathlib

/-!
Shallow embedding of the order status subsystem of the shopOrder backend
(src/src/services/orderStatusService.js): the status registry, the
transition validator, the transition executor, the history reader and the
cancellation policy, together with the JavaScript property-lookup
semantics the service relies on (the registry objects are plain object
literals, so property reads fall through to `Object.prototype`).
-/

namespace ShopOrder

/-- A thrown JavaScript error value: constructor name and message. Every
error raised by the service itself is built with the plain `Error`
constructor (whose `name` is `"Error"`); runtime type errors raised by
the engine carry `name = "TypeError"`. -/
structure JsError where
  name : String
  message : String

deriving instance DecidableEq, Repr for JsError

/-- Outcome of calling a JavaScript function that may throw. -/
inductive JsOutcome (α : Type) where
  | ok (val : α)
  | thrown (e : JsError)

deriving instance DecidableEq, Repr for JsOutcome

/-- A JavaScript value read out of `STATUS_DESCRIPTIONS`: a string (an
own entry, or the echoed lookup key), a non-string value inherited from
`Object.prototype` (a built-in method, or the prototype object itself for
the `__proto__` accessor), or `null`. -/
inductive JsVal where
  | str (s : String)
  | protoVal (key : String)
  | nullVal

deriving instance DecidableEq, Repr for JsVal

/-- The own property names of `Object.prototype`, inherited by every
plain object literal such as `STATUS_TRANSITIONS`, `STATUS_DESCRIPTIONS`
and `ROLE_PERMISSIONS` (orderStatusService.js lines 18-36). A read of
any of these names on the registry objects yields a truthy non-string,
non-array value (a built-in function, or the prototype object for
`__proto__`). -/
def objectProtoProps : List String :=
  ["constructor", "hasOwnProperty", "isPrototypeOf", "propertyIsEnumerable",
   "toLocaleString", "toString", "valueOf", "__proto__",
   "__defineGetter__", "__defineSetter__", "__lookupGetter__", "__lookupSetter__"]

/-- Result of the JavaScript property read `obj[key]` on a plain object
literal: an own value, a truthy non-array non-string value inherited
from `Object.prototype`, or `undefined`. -/
inductive PropRead (α : Type) where
  | own (v : α)
  | protoRead (key : String)
  | undefined

deriving instance DecidableEq, Repr for PropRead

/-- JavaScript property read `obj[key]` on a plain object literal whose
own entries are `own`: an own entry wins, otherwise the lookup falls
through to `Object.prototype`, otherwise the read is `undefined`. -/
def readProp {α : Type} (own : List (String × α)) (key : String) : PropRead α :=
  match own.find? (fun p => p.1 == key) with
  | some p => .own p.2
  | none => if objectProtoProps.contains key then .protoRead key else .undefined

/-- JavaScript string conversion of a string-or-null value, used both as
the property key of `obj[v]` and as the rendering of a template literal
`s!`-style interpolation: `obj[null]` reads the key `"null"` and a
template renders `null` as `"null"`. -/
def jsStringOf : Option String → String
  | some s => s
  | none => "null"

/-- String conversion of a `JsVal` as a template literal renders it
(V8 renderings for the values inherited from `Object.prototype`). -/
def jsValString : JsVal → String
  | .str s => s
  | .nullVal => "null"
  | .protoVal k =>
    if k == "__proto__" then "[object Object]"
    else "function " ++ k ++ "() \x7b [native code] \x7d"

/-- `Array.prototype.includes` on an array of strings, applied to a
string-or-null argument (`null` is never equal to a string element). -/
def jsIncludes (xs : List String) (v : Option String) : Bool :=
  match v with
  | some s => xs.contains s
  | none => false

/-- The four statuses of `this.STATUS` (orderStatusService.js lines
10-15), in insertion order. -/
def statusList : List String := ["draft", "processing", "completed", "cancelled"]

/-- Own entries of `this.STATUS_TRANSITIONS` (orderStatusService.js
lines 18-23). -/
def STATUS_TRANSITIONS : List (String × List String) :=
  [("draft", ["processing", "cancelled"]),
   ("processing", ["completed", "cancelled"]),
   ("completed", []),
   ("cancelled", [])]

/-- Own entries of `this.STATUS_DESCRIPTIONS` (orderStatusService.js
lines 26-31); every value is a non-empty (hence truthy) string. -/
def STATUS_DESCRIPTIONS : List (String × String) :=
  [("draft", "草稿"), ("processing", "处理中"),
   ("completed", "已完成"), ("cancelled", "已取消")]

/-- Own entries of `this.ROLE_PERMISSIONS` (orderStatusService.js lines
34-36): `admin` is granted `Object.values(this.STATUS)`, i.e. every
status in insertion order. -/
def ROLE_PERMISSIONS : List (String × List String) :=
  [("admin", ["draft", "processing", "completed", "cancelled"])]

/-- The `TypeError` the engine raises when `.includes` is called on the
non-array value read from `STATUS_TRANSITIONS` through the prototype
chain (message as V8 renders it; the exact text is engine-dependent). -/
def transitionsIncludesTypeError : JsError :=
  { name := "TypeError",
    message := "this.STATUS_TRANSITIONS[fromStatus].includes is not a function" }

/-- The `TypeError` the engine raises when `.includes` is called on the
non-array value read from `ROLE_PERMISSIONS` through the prototype chain
(message as V8 renders it; the exact text is engine-dependent). -/
def permissionsIncludesTypeError : JsError :=
  { name := "TypeError",
    message := "permissions.includes is not a function" }

/-- `isValidTransition` (orderStatusService.js lines 45-50):
`if (!this.STATUS_TRANSITIONS[fromStatus]) return false;` then
`return this.STATUS_TRANSITIONS[fromStatus].includes(toStatus);`.
An `undefined` read is falsy, so the guard returns `false`; an own array
is truthy (even when empty) and `.includes` runs; a value inherited from
`Object.prototype` is truthy but has no `.includes`, so the call throws
a `TypeError`. -/
def isValidTransition (fromStatus toStatus : Option String) : JsOutcome Bool :=
  match readProp STATUS_TRANSITIONS (jsStringOf fromStatus) with
  | .undefined => .ok false
  | .protoRead _ => .thrown transitionsIncludesTypeError
  | .own xs => .ok (jsIncludes xs toStatus)

/-- `hasPermission` (orderStatusService.js lines 58-61):
`const permissions = this.ROLE_PERMISSIONS[role] || [];` then
`return permissions.includes(toStatus);`. An `undefined` read is falsy,
so `permissions` is `[]`; a truthy value inherited from
`Object.prototype` is kept and `.includes` on it throws a `TypeError`. -/
def hasPermission (role : String) (toStatus : Option String) : JsOutcome Bool :=
  match readProp ROLE_PERMISSIONS role with
  | .undefined => .ok (jsIncludes [] toStatus)
  | .protoRead _ => .thrown permissionsIncludesTypeError
  | .own xs => .ok (jsIncludes xs toStatus)

/-- Value of `this.STATUS_TRANSITIONS[currentStatus] || []`
(getAvailableTransitions, orderStatusService.js lines 68-70): an array,
or the truthy non-array value inherited from `Object.prototype`. -/
inductive TransitionsVal where
  | arr (xs : List String)
  | protoVal (key : String)

deriving instance DecidableEq, Repr for TransitionsVal

/-- `getAvailableTransitions` (orderStatusService.js lines 68-70). -/
def getAvailableTransitions (currentStatus : Option String) : TransitionsVal :=
  match readProp STATUS_TRANSITIONS (jsStringOf currentStatus) with
  | .own xs => .arr xs
  | .protoRead k => .protoVal k
  | .undefined => .arr []

/-- `getStatusDescription` (orderStatusService.js lines 77-79):
`return this.STATUS_DESCRIPTIONS[status] || status;`. Every own entry is
a non-empty string, hence truthy and returned as is; a value inherited
from `Object.prototype` is truthy and returned as is; an `undefined`
read is falsy, so the raw `status` argument is returned (which is `null`
when the argument was `null`). -/
def getStatusDescription (status : Option String) : JsVal :=
  match readProp STATUS_DESCRIPTIONS (jsStringOf status) with
  | .own d => .str d
  | .protoRead k => .protoVal k
  | .undefined =>
    match status with
    | some s => .str s
    | none => .nullVal

/-- The hand-authored transition graph of spec section 3, as an edge
list. Modelled from the spec: this is the spec-side definition used to
compare the code's `STATUS_TRANSITIONS` against the spec's graph. -/
def specGraphEdges : List (String × String) :=
  [("draft", "processing"), ("draft", "cancelled"),
   ("processing", "completed"), ("processing", "cancelled")]

/-- The successful return value of `transitionStatus`
(orderStatusService.js lines 132-137). -/
structure TransitionResult where
  success : Bool
  fromStatus : Option String
  toStatus : Option String
  description : String

deriving instance DecidableEq, Repr for TransitionResult

/-- The row payload handed to `OrderStatusFlow.create`
(orderStatusService.js lines 110-116). -/
structure FlowInsert where
  orderId : String
  fromStatus : Option String
  toStatus : Option String
  operator : String
  remark : String

deriving instance DecidableEq, Repr for FlowInsert

/-- The structured `changes` payload of a history record
(orderStatusService.js lines 124-129). -/
structure HistoryChanges where
  fromStatus : Option String
  toStatus : Option String
  role : String
  timestamp : String

deriving instance DecidableEq, Repr for HistoryChanges

/-- The row payload handed to `OrderHistory.create`
(orderStatusService.js lines 119-130). -/
structure HistoryInsert where
  orderId : String
  action : String
  description : String
  operator : String
  changes : HistoryChanges

deriving instance DecidableEq, Repr for HistoryInsert

/-- One database write issued by the executor, tagged with the
transaction handle it was passed (the `{ transaction }` option of each
ORM call; `none` models a `null` transaction). -/
inductive WriteOp where
  | updateOrder (orderId : String) (status : Option String) (txn : Option Nat)
  | createFlow (rec : FlowInsert) (txn : Option Nat)
  | createHistory (rec : HistoryInsert) (txn : Option Nat)

deriving instance DecidableEq, Repr for WriteOp

/-- The transaction handle a write was issued under. -/
def writeTxn : WriteOp → Option Nat
  | .updateOrder _ _ t => t
  | .createFlow _ t => t
  | .createHistory _ t => t

/-- `transitionStatus` (orderStatusService.js lines 92-138). `now`
stands for `new Date().toISOString()`; `txn` is the ambient transaction
handle the caller supplies, passed unchanged to each of the three
writes. The result is the JavaScript outcome of the call paired with
the list of writes the call issued, in program order; both validation
checks precede the first write, so a thrown outcome issues no writes. -/
def transitionStatus (orderId : String) (fromStatus toStatus : Option String)
    (operator role remark : String) (txn : Option Nat) (now : String) :
    JsOutcome TransitionResult × List WriteOp :=
  match isValidTransition fromStatus toStatus with
  | .thrown e => (.thrown e, [])
  | .ok false =>
    (.thrown { name := "Error",
               message := "无效的状态流转: " ++ jsStringOf fromStatus ++ " -> " ++
                 jsStringOf toStatus },
     [])
  | .ok true =>
    match hasPermission role toStatus with
    | .thrown e => (.thrown e, [])
    | .ok false =>
      (.thrown { name := "Error",
                 message := "用户角色 " ++ role ++ " 没有权限将状态变更为 " ++
                   jsStringOf toStatus },
       [])
    | .ok true =>
      (.ok { success := true, fromStatus := fromStatus, toStatus := toStatus,
             description := "订单状态从 " ++ jsValString (getStatusDescription fromStatus) ++
               " 变更为 " ++ jsValString (getStatusDescription toStatus) },
       [ .updateOrder orderId toStatus txn,
         .createFlow { orderId := orderId, fromStatus := fromStatus, toStatus := toStatus,
                       operator := operator, remark := remark } txn,
         .createHistory { orderId := orderId, action := "status_changed",
                          description := "订单状态从 " ++
                            jsValString (getStatusDescription fromStatus) ++
                            " 变更为 " ++ jsValString (getStatusDescription toStatus),
                          operator := operator,
                          changes := { fromStatus := fromStatus, toStatus := toStatus,
                                       role := role, timestamp := now } } txn ])

/-- The error constructor name of a thrown outcome (`none` when the call
returned normally): the JavaScript notion of the error's kind. -/
def outcomeErrorName {α : Type} : JsOutcome α → Option String
  | .ok _ => none
  | .thrown e => some e.name

/-- A persisted order row: the transition subsystem touches only `id`
and `status` (models/Order.js; the `status` column is a string, kept
optional here to model SQL nullability). -/
structure OrderRow where
  id : String
  status : Option String

deriving instance DecidableEq, Repr for OrderRow

/-- A persisted `order_status_flows` row (models/OrderStatusFlow.js):
`from_status` is nullable, the primary key and `createdAt` are generated
on insert. -/
structure FlowRecord where
  id : String
  orderId : String
  fromStatus : Option String
  toStatus : Option String
  operator : String
  remark : String
  createdAt : Nat

deriving instance DecidableEq, Repr for FlowRecord

/-- A persisted `order_histories` row (models/OrderHistory.js). -/
structure HistoryRecord where
  id : String
  orderId : String
  action : String
  description : String
  operator : String
  changes : HistoryChanges
  createdAt : Nat

deriving instance DecidableEq, Repr for HistoryRecord

/-- The database visible to readers: the three tables the subsystem
touches, plus the ORM's id generator and insertion clock (primary keys
and `createdAt` timestamps are generated by the store on insert). -/
structure DB where
  orders : List OrderRow
  flows : List FlowRecord
  histories : List HistoryRecord
  nextId : Nat
  clock : Nat

deriving instance DecidableEq, Repr for DB

/-- Apply one write to the database. `Order.update` with
`where: { id: orderId }` sets the status of every row whose primary key
matches; each `create` appends a fresh row with a generated id and
`createdAt`. -/
def applyOp (db : DB) : WriteOp → DB
  | .updateOrder oid st _ =>
    { db with
      orders := db.orders.map (fun o => if o.id == oid then { o with status := st } else o) }
  | .createFlow r _ =>
    { db with
      flows := db.flows ++ [{ id := toString db.nextId, orderId := r.orderId,
                              fromStatus := r.fromStatus, toStatus := r.toStatus,
                              operator := r.operator, remark := r.remark,
                              createdAt := db.clock }],
      nextId := db.nextId + 1, clock := db.clock + 1 }
  | .createHistory r _ =>
    { db with
      histories := db.histories ++ [{ id := toString db.nextId, orderId := r.orderId,
                                      action := r.action, description := r.description,
                                      operator := r.operator, changes := r.changes,
                                      createdAt := db.clock }],
      nextId := db.nextId + 1, clock := db.clock + 1 }

/-- Commit the writes buffered in a transaction to the database, in
issue order; rolling a transaction back simply discards its writes, so
the database is left as it was. -/
def commitOps (db : DB) (ops : List WriteOp) : DB := ops.foldl applyOp db

/-- One entry of the view `getStatusFlowHistory` returns
(orderStatusService.js lines 152-161): the raw flow record decorated
with both statuses' localized descriptions. -/
structure FlowView where
  id : String
  fromStatus : Option String
  toStatus : Option String
  fromStatusDesc : JsVal
  toStatusDesc : JsVal
  operator : String
  remark : String
  createdAt : Nat

deriving instance DecidableEq, Repr for FlowView

/-- Ascending comparison on `createdAt`, the sort key of the reader's
`order: [["createdAt", "ASC"]]` clause. -/
def createdAtLE (a b : FlowRecord) : Prop := a.createdAt ≤ b.createdAt

instance : DecidableRel createdAtLE := fun a b => Nat.decLe a.createdAt b.createdAt

instance : IsTotal FlowRecord createdAtLE := ⟨fun a b => Nat.le_total a.createdAt b.createdAt⟩

instance : IsTrans FlowRecord createdAtLE := ⟨fun _ _ _ h1 h2 => Nat.le_trans h1 h2⟩

/-- `getStatusFlowHistory` (orderStatusService.js lines 146-162):
`findAll` the order's flow rows sorted ascending by `createdAt`, then
map each row to a view decorating it with the localized descriptions of
both stored statuses, computed through the registry at read time. -/
def getStatusFlowHistory (db : DB) (orderId : String) : List FlowView :=
  (List.insertionSort createdAtLE (db.flows.filter (fun f => f.orderId == orderId))).map
    (fun flow =>
      { id := flow.id, fromStatus := flow.fromStatus, toStatus := flow.toStatus,
        fromStatusDesc := getStatusDescription flow.fromStatus,
        toStatusDesc := getStatusDescription flow.toStatus,
        operator := flow.operator, remark := flow.remark, createdAt := flow.createdAt })

/-- The result of the cancellation eligibility check
(orderStatusService.js lines 173-183). -/
structure CancelCheck where
  canCancel : Bool
  reason : String

deriving instance DecidableEq, Repr for CancelCheck

/-- `canCancelOrder` (orderStatusService.js lines 169-184): eligible iff
the order's status is in `[draft, processing]`; otherwise the reason
interpolates the localized description of the current status. -/
def canCancelOrder (order : OrderRow) : CancelCheck :=
  if jsIncludes ["draft", "processing"] order.status then
    { canCancel := true, reason := "订单可以取消" }
  else
    { canCancel := false,
      reason := "订单状态为 " ++ jsValString (getStatusDescription order.status) ++
        "，无法取消" }

/-- A small database used to instantiate hypotheses of the universally
quantified theorems at concrete inputs: one order whose stored status is
`completed`. -/
def sampleDb : DB :=
  { orders := [{ id := "order-1", status := some "completed" }],
    flows := [], histories := [], nextId := 0, clock := 0 }

/-! Helper lemmas: case analysis of `transitionStatus`. -/

theorem transitionStatus_of_valid_thrown {f t : Option String} {e : JsError}
    (h : isValidTransition f t = .thrown e)
    (oid op role rem : String) (txn : Option Nat) (now : String) :
    transitionStatus oid f t op role rem txn now = (.thrown e, []) := by
  simp only [transitionStatus, h]

theorem transitionStatus_of_invalid {f t : Option String}
    (h : isValidTransition f t = .ok false)
    (oid op role rem : String) (txn : Option Nat) (now : String) :
    transitionStatus oid f t op role rem txn now =
      (.thrown { name := "Error",
                 message := "无效的状态流转: " ++ jsStringOf f ++ " -> " ++ jsStringOf t },
       []) := by
  simp only [transitionStatus, h]

theorem transitionStatus_of_perm_thrown {f t : Option String} {role : String} {e : JsError}
    (h1 : isValidTransition f t = .ok true) (h2 : hasPermission role t = .thrown e)
    (oid op rem : String) (txn : Option Nat) (now : String) :
    transitionStatus oid f t op role rem txn now = (.thrown e, []) := by
  simp only [transitionStatus, h1, h2]

theorem transitionStatus_of_forbidden {f t : Option String} {role : String}
    (h1 : isValidTransition f t = .ok true) (h2 : hasPermission role t = .ok false)
    (oid op rem : String) (txn : Option Nat) (now : String) :
    transitionStatus oid f t op role rem txn now =
      (.thrown { name := "Error",
                 message := "用户角色 " ++ role ++ " 没有权限将状态变更为 " ++ jsStringOf t },
       []) := by
  simp only [transitionStatus, h1, h2]

theorem transitionStatus_of_success {f t : Option String} {role : String}
    (h1 : isValidTransition f t = .ok true) (h2 : hasPermission role t = .ok true)
    (oid op rem : String) (txn : Option Nat) (now : String) :
    transitionStatus oid f t op role rem txn now =
      (.ok { success := true, fromStatus := f, toStatus := t,
             description := "订单状态从 " ++ jsValString (getStatusDescription f) ++
               " 变更为 " ++ jsValString (getStatusDescription t) },
       [ .updateOrder oid t txn,
         .createFlow { orderId := oid, fromStatus := f, toStatus := t,
                       operator := op, remark := rem } txn,
         .createHistory { orderId := oid, action := "status_changed",
                          description := "订单状态从 " ++
                            jsValString (getStatusDescription f) ++
                            " 变更为 " ++ jsValString (getStatusDescription t),
                          operator := op,
                          changes := { fromStatus := f, toStatus := t,
                                       role := role, timestamp := now } } txn ]) := by
  simp only [transitionStatus, h1, h2]

theorem isValidTransition_terminal (t : Option String) :
    isValidTransition (some "completed") t = .ok false ∧
    isValidTransition (some "cancelled") t = .ok false := by
  cases t <;> exact ⟨rfl, rfl⟩

theorem valid_transition_source_cases {f t : Option String}
    (h : isValidTransition f t = .ok true) :
    f = some "draft" ∨ f = some "processing" := by
  cases f with
  | none =>
    have hr : isValidTransition none t = .ok false := by cases t <;> rfl
    rw [hr] at h
    injection h with h'
    exact Bool.noConfusion h'
  | some s =>
    by_cases h1 : s = "draft"
    · exact Or.inl (by rw [h1])
    by_cases h2 : s = "processing"
    · exact Or.inr (by rw [h2])
    exfalso
    by_cases h3 : s = "completed"
    · subst h3
      rw [(isValidTransition_terminal t).1] at h
      injection h with h'
      exact Bool.noConfusion h'
    by_cases h4 : s = "cancelled"
    · subst h4
      rw [(isValidTransition_terminal t).2] at h
      injection h with h'
      exact Bool.noConfusion h'
    have e1 : ("draft" == s) = false := beq_eq_false_iff_ne.mpr (fun hh => h1 hh.symm)
    have e2 : ("processing" == s) = false := beq_eq_false_iff_ne.mpr (fun hh => h2 hh.symm)
    have e3 : ("completed" == s) = false := beq_eq_false_iff_ne.mpr (fun hh => h3 hh.symm)
    have e4 : ("cancelled" == s) = false := beq_eq_false_iff_ne.mpr (fun hh => h4 hh.symm)
    have hfind : STATUS_TRANSITIONS.find? (fun p => p.1 == s) = none := by
      simp [STATUS_TRANSITIONS, List.find?, e1, e2, e3, e4]
    by_cases hp : s ∈ objectProtoProps
    · have hr : isValidTransition (some s) t = .thrown transitionsIncludesTypeError := by
        simp [isValidTransition, jsStringOf, readProp, hfind, hp]
      rw [hr] at h
      exact JsOutcome.noConfusion h
    · have hr : isValidTransition (some s) t = .ok false := by
        simp [isValidTransition, jsStringOf, readProp, hfind, hp]
      rw [hr] at h
      injection h with h'
      exact Bool.noConfusion h'

/-! Claim theorems. -/

/-- C1: over all 16 pairs of enumerated statuses, `isValidTransition`
agrees with membership in the hand-authored graph of spec section 3
(draft to processing or cancelled, processing to completed or cancelled,
nothing out of completed or cancelled); moreover the two terminal
statuses admit no target at all, enumerated or not. -/
theorem isValidTransition_agrees_with_spec_graph :
    ((statusList.all fun f => statusList.all fun t =>
        isValidTransition (some f) (some t) == .ok (specGraphEdges.contains (f, t))) = true)
    ∧ ∀ t : Option String,
        isValidTransition (some "completed") t = .ok false ∧
        isValidTransition (some "cancelled") t = .ok false :=
  ⟨by decide, isValidTransition_terminal⟩

/-- C2: the claim that `isValidTransition` never throws and fails closed
on every unknown `from` string is violated by the code: the string
`"constructor"` is not one of the four statuses, yet
`isValidTransition("constructor", "draft")` reads the truthy
`Object.prototype.constructor` through the prototype chain and then
throws a `TypeError` when calling `.includes` on it, instead of
returning `false`. -/
theorem isValidTransition_throws_on_proto_key :
    "constructor" ∉ statusList ∧
    isValidTransition (some "constructor") (some "draft") =
      .thrown transitionsIncludesTypeError :=
  ⟨by decide, rfl⟩

/-- C3: `getStatusDescription` does return the display label for each
of the four enumerated statuses, but the unlocalized-passthrough claim
fails for strings that name inherited `Object.prototype` properties:
`getStatusDescription("constructor")` returns the inherited
`Object.prototype.constructor` (a truthy function value, kept by the
`||` fallback), not the input string `"constructor"`. -/
theorem getStatusDescription_not_passthrough_on_proto_key :
    ((statusList.map fun s => getStatusDescription (some s)) =
      [.str "草稿", .str "处理中", .str "已完成", .str "已取消"])
    ∧ "constructor" ∉ statusList
    ∧ getStatusDescription (some "constructor") = .protoVal "constructor"
    ∧ getStatusDescription (some "constructor") ≠ .str "constructor" :=
  ⟨rfl, by decide, rfl, by decide⟩

/-- C4 counterexample: both rejection paths of `transitionStatus` throw
errors built by the same plain `Error` constructor — at the concrete
inputs below, the illegal-transition rejection and the missing-permission
rejection produce errors of the same kind (`name = "Error"`),
distinguishable only by their message strings, so the two rejection
cases are not distinct error kinds. -/
theorem transitionStatus_rejection_kinds_equal :
    ((transitionStatus "order-1" (some "completed") (some "processing") "alice" "admin" ""
        (some 1) "2024-01-01T00:00:00.000Z").1 =
      .thrown { name := "Error", message := "无效的状态流转: completed -> processing" })
    ∧ ((transitionStatus "order-1" (some "draft") (some "processing") "alice" "user" ""
        (some 1) "2024-01-01T00:00:00.000Z").1 =
      .thrown { name := "Error", message := "用户角色 user 没有权限将状态变更为 processing" })
    ∧ outcomeErrorName (transitionStatus "order-1" (some "completed") (some "processing")
        "alice" "admin" "" (some 1) "2024-01-01T00:00:00.000Z").1 =
      outcomeErrorName (transitionStatus "order-1" (some "draft") (some "processing")
        "alice" "user" "" (some 1) "2024-01-01T00:00:00.000Z").1 :=
  ⟨rfl, rfl, rfl⟩

/-- C4 amended: `transitionStatus` raises an error exactly when the
request is rejected and never downgrades a rejection to a no-op success;
the two rejection cases raise errors of the same generic `Error` kind,
distinguishable only by their messages: the invalid-transition message
carries both statuses and the missing-permission message carries the
role and the target status. -/
theorem transitionStatus_rejection_behavior :
    ∀ (oid : String) (f t : Option String) (op role rem : String) (txn : Option Nat)
      (now : String),
      (isValidTransition f t = .ok false →
        (transitionStatus oid f t op role rem txn now).1 =
          .thrown { name := "Error",
                    message := "无效的状态流转: " ++ jsStringOf f ++ " -> " ++ jsStringOf t })
      ∧ (isValidTransition f t = .ok true → hasPermission role t = .ok false →
        (transitionStatus oid f t op role rem txn now).1 =
          .thrown { name := "Error",
                    message := "用户角色 " ++ role ++ " 没有权限将状态变更为 " ++
                      jsStringOf t })
      ∧ (isValidTransition f t = .ok true → hasPermission role t = .ok true →
        ∃ r : TransitionResult,
          (transitionStatus oid f t op role rem txn now).1 = .ok r ∧ r.success = true) := by
  intro oid f t op role rem txn now
  refine ⟨fun h1 => ?_, fun h1 h2 => ?_, fun h1 h2 => ?_⟩
  · rw [transitionStatus_of_invalid h1]
  · rw [transitionStatus_of_forbidden h1 h2]
  · exact ⟨_, by rw [transitionStatus_of_success h1 h2], rfl⟩

theorem transitionStatus_rejection_behavior_witness :
    isValidTransition (some "completed") (some "processing") = .ok false ∧
    (transitionStatus "order-1" (some "completed") (some "processing") "alice" "admin" ""
        (some 1) "2024-01-01T00:00:00.000Z").1 =
      .thrown { name := "Error",
                message := "无效的状态流转: " ++ jsStringOf (some "completed") ++ " -> " ++
                  jsStringOf (some "processing") } :=
  ⟨by decide,
   (transitionStatus_rejection_behavior "order-1" (some "completed") (some "processing")
      "alice" "admin" "" (some 1) "2024-01-01T00:00:00.000Z").1 (by decide)⟩

/-- C5: every write `transitionStatus` issues is tagged with the single
supplied transaction handle, and a rejected call (one that throws)
issues no write at all, so after the caller unwinds the transaction the
order's status is unchanged and no new flow or history record exists:
committing the (empty) write list leaves any database exactly as it
was. -/
theorem transitionStatus_txn_scoped_and_atomic :
    ∀ (oid : String) (f t : Option String) (op role rem : String) (txn : Option Nat)
      (now : String) (db : DB),
      (∀ w ∈ (transitionStatus oid f t op role rem txn now).2, writeTxn w = txn)
      ∧ (∀ e : JsError, (transitionStatus oid f t op role rem txn now).1 = .thrown e →
          (transitionStatus oid f t op role rem txn now).2 = [] ∧
          commitOps db (transitionStatus oid f t op role rem txn now).2 = db) := by
  intro oid f t op role rem txn now db
  rcases hv : isValidTransition f t with b | e
  · rcases b with _ | _
    · rw [transitionStatus_of_invalid hv]
      exact ⟨(by intro w hw; cases hw), fun e _ => ⟨rfl, rfl⟩⟩
    · rcases hp : hasPermission role t with b2 | e2
      · rcases b2 with _ | _
        · rw [transitionStatus_of_forbidden hv hp]
          exact ⟨(by intro w hw; cases hw), fun e _ => ⟨rfl, rfl⟩⟩
        · rw [transitionStatus_of_success hv hp]
          refine ⟨?_, ?_⟩
          · intro w hw
            simp only [List.mem_cons, List.not_mem_nil, or_false] at hw
            rcases hw with rfl | rfl | rfl <;> rfl
          · intro e he
            exact absurd he (by simp)
      · rw [transitionStatus_of_perm_thrown hv hp]
        exact ⟨(by intro w hw; cases hw), fun e _ => ⟨rfl, rfl⟩⟩
  · rw [transitionStatus_of_valid_thrown hv]
    exact ⟨(by intro w hw; cases hw), fun e _ => ⟨rfl, rfl⟩⟩

/-- C6: when the transition is legal and the role is permitted,
`transitionStatus` returns the success result carrying both statuses and
the localized sentence built from the registry's descriptions, and it
issues exactly three writes — the status update, one flow insert holding
the given order id, statuses, operator and remark, and one history
insert with action `status_changed` whose changes payload holds both
statuses, the role and the timestamp; committing them appends exactly
one flow record and exactly one history record and sets the order's
status. -/
theorem transitionStatus_success_writes :
    ∀ (oid : String) (f t : Option String) (op role rem : String) (txn : Option Nat)
      (now : String) (db : DB),
      isValidTransition f t = .ok true → hasPermission role t = .ok true →
      (transitionStatus oid f t op role rem txn now =
        (.ok { success := true, fromStatus := f, toStatus := t,
               description := "订单状态从 " ++ jsValString (getStatusDescription f) ++
                 " 变更为 " ++ jsValString (getStatusDescription t) },
         [ .updateOrder oid t txn,
           .createFlow { orderId := oid, fromStatus := f, toStatus := t,
                         operator := op, remark := rem } txn,
           .createHistory { orderId := oid, action := "status_changed",
                            description := "订单状态从 " ++
                              jsValString (getStatusDescription f) ++
                              " 变更为 " ++ jsValString (getStatusDescription t),
                            operator := op,
                            changes := { fromStatus := f, toStatus := t,
                                         role := role, timestamp := now } } txn ]))
      ∧ commitOps db (transitionStatus oid f t op role rem txn now).2 =
          { orders := db.orders.map
              (fun o => if o.id == oid then { o with status := t } else o),
            flows := db.flows ++ [{ id := toString db.nextId, orderId := oid,
                                    fromStatus := f, toStatus := t, operator := op,
                                    remark := rem, createdAt := db.clock }],
            histories := db.histories ++
              [{ id := toString (db.nextId + 1), orderId := oid,
                 action := "status_changed",
                 description := "订单状态从 " ++ jsValString (getStatusDescription f) ++
                   " 变更为 " ++ jsValString (getStatusDescription t),
                 operator := op,
                 changes := { fromStatus := f, toStatus := t,
                              role := role, timestamp := now },
                 createdAt := db.clock + 1 }],
            nextId := db.nextId + 2, clock := db.clock + 2 } := by
  intro oid f t op role rem txn now db h1 h2
  refine ⟨transitionStatus_of_success h1 h2 oid op rem txn now, ?_⟩
  rw [transitionStatus_of_success h1 h2]
  rfl

theorem transitionStatus_success_writes_witness :
    isValidTransition (some "draft") (some "processing") = .ok true ∧
    hasPermission "admin" (some "processing") = .ok true ∧
    transitionStatus "order-1" (some "draft") (some "processing") "alice" "admin" ""
        (some 1) "t0" =
      (.ok { success := true, fromStatus := some "draft", toStatus := some "processing",
             description := "订单状态从 草稿 变更为 处理中" },
       [ .updateOrder "order-1" (some "processing") (some 1),
         .createFlow { orderId := "order-1", fromStatus := some "draft",
                       toStatus := some "processing", operator := "alice",
                       remark := "" } (some 1),
         .createHistory { orderId := "order-1", action := "status_changed",
                          description := "订单状态从 草稿 变更为 处理中",
                          operator := "alice",
                          changes := { fromStatus := some "draft",
                                       toStatus := some "processing",
                                       role := "admin", timestamp := "t0" } } (some 1) ]) :=
  ⟨by decide, by decide,
   (transitionStatus_success_writes "order-1" (some "draft") (some "processing") "alice"
      "admin" "" (some 1) "t0" sampleDb (by decide) (by decide)).1⟩

/-- C7: the executor never compares the caller-supplied `fromStatus`
against the order's stored status: committing the writes of a valid and
permitted call rewrites the status of every row matching the order id to
`toStatus`, whatever status was stored — the stored value does not occur
in the update at all, so there is no compare-and-swap. -/
theorem transitionStatus_no_stored_status_check :
    ∀ (oid : String) (f t : Option String) (op role rem : String) (txn : Option Nat)
      (now : String) (db : DB),
      isValidTransition f t = .ok true → hasPermission role t = .ok true →
      (commitOps db (transitionStatus oid f t op role rem txn now).2).orders =
        db.orders.map (fun o => if o.id == oid then { o with status := t } else o) := by
  intro oid f t op role rem txn now db h1 h2
  rw [transitionStatus_of_success h1 h2]
  rfl

theorem transitionStatus_no_stored_status_check_witness :
    isValidTransition (some "draft") (some "processing") = .ok true ∧
    hasPermission "admin" (some "processing") = .ok true ∧
    sampleDb.orders = [{ id := "order-1", status := some "completed" }] ∧
    (commitOps sampleDb (transitionStatus "order-1" (some "draft") (some "processing")
        "alice" "admin" "" (some 1) "t0").2).orders =
      [{ id := "order-1", status := some "processing" }] :=
  ⟨by decide, by decide, rfl, by
    rw [transitionStatus_no_stored_status_check "order-1" (some "draft") (some "processing")
      "alice" "admin" "" (some 1) "t0" sampleDb (by decide) (by decide)]
    rfl⟩

theorem transitionStatus_txn_scoped_and_atomic_witness :
    (transitionStatus "order-1" (some "completed") (some "processing") "alice" "admin" ""
        (some 1) "t0").1 =
      .thrown { name := "Error", message := "无效的状态流转: completed -> processing" } ∧
    ((transitionStatus "order-1" (some "completed") (some "processing") "alice" "admin" ""
        (some 1) "t0").2 = [] ∧
      commitOps sampleDb (transitionStatus "order-1" (some "completed") (some "processing")
        "alice" "admin" "" (some 1) "t0").2 = sampleDb) :=
  ⟨by decide,
   (transitionStatus_txn_scoped_and_atomic "order-1" (some "completed") (some "processing")
      "alice" "admin" "" (some 1) "t0" sampleDb).2
     { name := "Error", message := "无效的状态流转: completed -> processing" } (by decide)⟩

/-- C8: for every enumerated status, the cancellation policy grants
`canCancel = true` exactly for `draft` and `processing`, which is
exactly when `cancelled` is a member of the array
`getAvailableTransitions` returns for that status — so the policy agrees
with the transition graph — and every refusal comes with a non-empty
reason string. -/
theorem canCancelOrder_consistent_with_graph :
    ∀ (o : OrderRow) (s : String), s ∈ statusList → o.status = some s →
      ((canCancelOrder o).canCancel = ((s == "draft") || (s == "processing")))
      ∧ ((canCancelOrder o).canCancel = true ↔
          ∃ xs, getAvailableTransitions (some s) = .arr xs ∧ xs.contains "cancelled" = true)
      ∧ ((canCancelOrder o).canCancel = false → (canCancelOrder o).reason ≠ "") := by
  intro o s hs hst
  rcases o with ⟨oid, ost⟩
  cases hst
  simp only [statusList, List.mem_cons, List.not_mem_nil, or_false] at hs
  rcases hs with rfl | rfl | rfl | rfl
  · exact ⟨rfl, ⟨fun _ => ⟨["processing", "cancelled"], rfl, rfl⟩, fun _ => rfl⟩,
      fun h => Bool.noConfusion h⟩
  · exact ⟨rfl, ⟨fun _ => ⟨["completed", "cancelled"], rfl, rfl⟩, fun _ => rfl⟩,
      fun h => Bool.noConfusion h⟩
  · refine ⟨rfl, ⟨fun h => Bool.noConfusion h, ?_⟩,
      fun _ => by show ("订单状态为 已完成，无法取消" : String) ≠ ""; decide⟩
    rintro ⟨xs, hxs, hmem⟩
    injection hxs with h
    subst h
    exact Bool.noConfusion hmem
  · refine ⟨rfl, ⟨fun h => Bool.noConfusion h, ?_⟩,
      fun _ => by show ("订单状态为 已取消，无法取消" : String) ≠ ""; decide⟩
    rintro ⟨xs, hxs, hmem⟩
    injection hxs with h
    subst h
    exact Bool.noConfusion hmem

/-- C9: `getStatusFlowHistory` returns the order's flow records sorted
ascending by creation time; every returned view carries localized
descriptions computed at read time by applying the registry's
`getStatusDescription` to the record's stored statuses, and the views'
raw fields (id, statuses, operator, remark, createdAt) are exactly those
of the order's stored flow records. -/
theorem getStatusFlowHistory_sorted_localized :
    ∀ (db : DB) (oid : String),
      ((getStatusFlowHistory db oid).Pairwise fun a b => a.createdAt ≤ b.createdAt)
      ∧ (((getStatusFlowHistory db oid).all fun v =>
           (v.fromStatusDesc == getStatusDescription v.fromStatus) &&
           (v.toStatusDesc == getStatusDescription v.toStatus)) = true)
      ∧ (((getStatusFlowHistory db oid).map fun v =>
           (v.id, v.fromStatus, v.toStatus, v.operator, v.remark, v.createdAt)).Perm
          ((db.flows.filter fun f => f.orderId == oid).map fun f =>
           (f.id, f.fromStatus, f.toStatus, f.operator, f.remark, f.createdAt))) := by
  intro db oid
  refine ⟨?_, ?_, ?_⟩
  · have hs : (List.insertionSort createdAtLE
        (db.flows.filter (fun f => f.orderId == oid))).Pairwise createdAtLE :=
      List.sorted_insertionSort createdAtLE _
    unfold getStatusFlowHistory
    rw [List.pairwise_map]
    exact hs
  · simp only [getStatusFlowHistory, List.all_eq_true, List.mem_map]
    rintro v ⟨flow, hmem, rfl⟩
    simp
  · unfold getStatusFlowHistory
    rw [List.map_map]
    exact List.Perm.map _ (List.perm_insertionSort createdAtLE _)

/-- C10: any flow insert issued by `transitionStatus` records a pair of
statuses that passed both validation checks of the very same call: the
pair is a valid transition, the target is permitted for the acting role,
and the source status is never null and never terminal (it is `draft` or
`processing`). -/
theorem flow_records_only_valid_edges :
    ∀ (oid : String) (f t : Option String) (op role rem : String) (txn txn2 : Option Nat)
      (now : String) (rec : FlowInsert),
      WriteOp.createFlow rec txn2 ∈ (transitionStatus oid f t op role rem txn now).2 →
      isValidTransition rec.fromStatus rec.toStatus = .ok true
      ∧ hasPermission role rec.toStatus = .ok true
      ∧ rec.fromStatus ≠ none
      ∧ (rec.fromStatus = some "draft" ∨ rec.fromStatus = some "processing") := by
  intro oid f t op role rem txn txn2 now rec hmem
  rcases hv : isValidTransition f t with b | e
  · rcases b with _ | _
    · rw [transitionStatus_of_invalid hv] at hmem
      simp at hmem
    · rcases hp : hasPermission role t with b2 | e2
      · rcases b2 with _ | _
        · rw [transitionStatus_of_forbidden hv hp] at hmem
          simp at hmem
        · rw [transitionStatus_of_success hv hp] at hmem
          simp only [List.mem_cons, List.not_mem_nil, or_false] at hmem
          rcases hmem with h | h | h
          · exact WriteOp.noConfusion h
          · injection h with h1 h2
            subst h1
            refine ⟨hv, hp, ?_, valid_transition_source_cases hv⟩
            rcases valid_transition_source_cases hv with rfl | rfl <;> simp
          · exact WriteOp.noConfusion h
      · rw [transitionStatus_of_perm_thrown hv hp] at hmem
        simp at hmem
  · rw [transitionStatus_of_valid_thrown hv] at hmem
    simp at hmem

theorem canCancelOrder_consistent_with_graph_witness :
    "completed" ∈ statusList ∧
    (canCancelOrder { id := "order-1", status := some "completed" }).canCancel = false ∧
    (canCancelOrder { id := "order-1", status := some "completed" }).reason ≠ "" := by
  have h := canCancelOrder_consistent_with_graph
    { id := "order-1", status := some "completed" } "completed" (by decide) rfl
  exact ⟨by decide, h.1.trans (by decide), h.2.2 (h.1.trans (by decide))⟩

theorem flow_records_only_valid_edges_witness :
    (WriteOp.createFlow { orderId := "order-1", fromStatus := some "draft",
                          toStatus := some "processing", operator := "alice",
                          remark := "" } (some 1) ∈
      (transitionStatus "order-1" (some "draft") (some "processing") "alice" "admin" ""
        (some 1) "t0").2)
    ∧ (isValidTransition (some "draft") (some "processing") = .ok true
       ∧ hasPermission "admin" (some "processing") = .ok true
       ∧ (some "draft" : Option String) ≠ none
       ∧ ((some "draft" : Option String) = some "draft" ∨
          (some "draft" : Option String) = some "processing")) :=
  ⟨by decide,
   flow_records_only_valid_edges "order-1" (some "draft") (some "processing") "alice"
     "admin" "" (some 1) (some 1) "t0"
     { orderId := "order-1", fromStatus := some "draft", toStatus := some "processing",
       operator := "alice", remark := "" } (by decide)⟩

end ShopOrder
